import Mathlib

/-!
Signal handler facility of Yamagi Quake II (`src/backends/unix/signalhandler.c`).

A shallow embedding of `printBacktrace`, `signalhandler`, `terminate` and
`registerHandler`.  The C code is a straight line of library calls acting on
process-global state, so every function becomes a state transformer on `World`:
the shutdown flag, the text sent to standard output, the signal-disposition
table, and the ordered trace of library calls made so far.
-/

namespace SignalHandler

/-! ## Data model -/

/-- Values a slot of the signal-disposition table can hold: the two special
dispositions of `<signal.h>`, the two handlers this file defines, or any other
function (identified by its address). -/
inductive Handler where
  | SIG_DFL
  | SIG_IGN
  | signalhandler
  | terminate
  | other (addr : Nat)
deriving DecidableEq

/-- One library call performed by the facility, as recorded in the trace.
`raise` records the disposition in force for the signal when it is raised. -/
inductive Event where
  | printf (text : String)
  | fflush
  | signal (sig : Int) (h : Handler)
  | raise (sig : Int) (disp : Handler)
deriving DecidableEq

/-- Process-global state the facility reads or writes. -/
structure World where
  /-- Shutdown flag `extern qboolean quitnextframe`. -/
  quitnextframe : Bool
  /-- Everything written to standard output so far. -/
  stdout : String
  /-- Signal-disposition table of the process. -/
  disp : Int → Handler
  /-- Library calls made so far, oldest first. -/
  trace : List Event

/-- Build constants and platform facilities the file takes from outside:
the macros `YQ2VERSION`, `YQ2OSTYPE`, `YQ2ARCH` of `common.h`, the compiler's
`__VERSION__`, whether `defined(__linux__) || defined(__FreeBSD__)` holds, and,
for the execinfo calls, the return addresses on the call stack (innermost
first) with the symbol string `backtrace_symbols` resolves each one to. -/
structure Env where
  YQ2VERSION : String
  YQ2OSTYPE : String
  YQ2ARCH : String
  compilerVersion : String
  hasExecinfo : Bool
  stack : List Nat
  symbol : Nat → String

/-! ## Signal numbers (`<signal.h>`; the values shared by Linux and FreeBSD) -/

def SIGINT : Int := 2
def SIGILL : Int := 4
def SIGABRT : Int := 6
def SIGFPE : Int := 8
def SIGSEGV : Int := 11
def SIGTERM : Int := 15

/-! ## Library calls -/

/-- printf of an already formatted text: appended to standard output. -/
def printf (text : String) (w : World) : World :=
  { w with stdout := w.stdout ++ text, trace := w.trace ++ [Event.printf text] }

/-- fflush(stdout): the text is unchanged, the call is recorded. -/
def fflush (w : World) : World :=
  { w with trace := w.trace ++ [Event.fflush] }

/-- signal(sig, h): slot `sig` of the disposition table becomes `h`. -/
def signal (sig : Int) (h : Handler) (w : World) : World :=
  { w with
    disp := fun s => if s = sig then h else w.disp s
    trace := w.trace ++ [Event.signal sig h] }

/-- raise(sig), intercepted: nothing is delivered, the call is recorded with
the disposition the signal has at that moment. -/
def raise (sig : Int) (w : World) : World :=
  { w with trace := w.trace ++ [Event.raise sig (w.disp sig)] }

/-- The `%i` conversion of printf: a signed decimal numeral. -/
def fmt_i (n : Int) : String :=
  if n < 0 then "-" ++ Nat.repr n.natAbs else Nat.repr n.natAbs

/-- backtrace(array, size): stores at most `size` return addresses of the
call stack; the returned count is the length of the result. -/
def backtrace (stack : List Nat) (size : Nat) : List Nat :=
  stack.take size

/-- backtrace_symbols(array, size): one string per captured address. -/
def backtrace_symbols (symbol : Nat → String) (array : List Nat) : List String :=
  array.map symbol

/-! ## The functions of `signalhandler.c` -/

/-- The six diagnostic printf calls and the heading, common to both variants
of `printBacktrace` (lines 51-57 and 72-78). -/
def printDiagnostics (env : Env) (sig : Int) (w : World) : World :=
  let w := printf "Product:      Yamagi Quake II\n" w
  let w := printf ("Version:      " ++ env.YQ2VERSION ++ "\n") w
  let w := printf ("Platform:     " ++ env.YQ2OSTYPE ++ "\n") w
  let w := printf ("Architecture: " ++ env.YQ2ARCH ++ "\n") w
  let w := printf ("Compiler:     " ++ env.compilerVersion ++ "\n") w
  let w := printf ("Signal:       " ++ fmt_i sig ++ "\n") w
  printf "\nBacktrace:\n" w

/-- The loop `for (i = 0; i < size; i++) printf("  %s\n", strings[i]);`.
The default of the read `strings[i]` is never used when `size` is the number
of strings, as it is at the call. -/
def printFrames (strings : List String) (size : Nat) (w : World) : World :=
  (List.range size).foldl (fun w i => printf ("  " ++ strings.getD i "" ++ "\n") w) w

/-- The variant of `printBacktrace` compiled on Linux and FreeBSD
(lines 40-65). -/
def printBacktraceExecinfo (env : Env) (sig : Int) (w : World) : World :=
  let array := backtrace env.stack 15
  let size := array.length
  let strings := backtrace_symbols env.symbol array
  let w := printDiagnostics env sig w
  let w := printFrames strings size w
  printf "\n" w

/-- The variant of `printBacktrace` compiled elsewhere (lines 69-80). -/
def printBacktraceFallback (env : Env) (sig : Int) (w : World) : World :=
  let w := printDiagnostics env sig w
  printf "  Not available on this plattform.\n\n" w

/-- The function `printBacktrace`, selected by the preprocessor condition. -/
def printBacktrace (env : Env) (sig : Int) (w : World) : World :=
  if env.hasExecinfo then printBacktraceExecinfo env sig w
  else printBacktraceFallback env sig w

/-- The rule of the banner: 55 times the character `=`. -/
def rule : String := String.mk (List.replicate 55 '=')

/-- The four banner printf calls of `signalhandler` (lines 87-90). -/
def printBanner (w : World) : World :=
  let w := printf ("\n" ++ rule ++ "\n") w
  let w := printf "\nYamagi Quake II crashed! This should not happen...\n" w
  let w := printf "\nMake sure that you are using the last version.\n" w
  printf ("\n" ++ rule ++ "\n\n") w

/-- The crash handler `signalhandler` (lines 84-105). -/
def signalhandler (env : Env) (sig : Int) (w : World) : World :=
  let w := printBanner w
  let w := printBacktrace env sig w
  let w := fflush w
  let w := signal SIGSEGV Handler.SIG_DFL w
  let w := signal SIGILL Handler.SIG_DFL w
  let w := signal SIGFPE Handler.SIG_DFL w
  let w := signal SIGABRT Handler.SIG_DFL w
  raise sig w

/-- The graceful handler `terminate` (lines 109-113). -/
def terminate (_sig : Int) (w : World) : World :=
  { w with quitnextframe := true }

/-- The registration entry point `registerHandler` (lines 115-127). -/
def registerHandler (w : World) : World :=
  let w := signal SIGSEGV Handler.signalhandler w
  let w := signal SIGILL Handler.signalhandler w
  let w := signal SIGFPE Handler.signalhandler w
  let w := signal SIGABRT Handler.signalhandler w
  let w := signal SIGINT Handler.terminate w
  signal SIGTERM Handler.terminate w

/-- Text of the printf calls of a trace, concatenated in call order. -/
def printed : List Event → String
  | [] => ""
  | Event.printf text :: es => text ++ printed es
  | _ :: es => printed es

/-- Operations of the facility, for runs of several of them. -/
inductive Op where
  | registerHandler
  | terminate (sig : Int)
  | signalhandler (sig : Int)

/-- Effect of one operation on the world. -/
def step (env : Env) (w : World) : Op → World
  | Op.registerHandler => registerHandler w
  | Op.terminate sig => terminate sig w
  | Op.signalhandler sig => signalhandler env sig w

/-- Effect of a sequence of operations, performed left to right. -/
def run (env : Env) (ops : List Op) (w : World) : World :=
  ops.foldl (step env) w

/-- The printf call that prints the heading of the backtrace section. -/
def headingEvent : Event := Event.printf "\nBacktrace:\n"

/-- Backtrace section of a trace: the calls made after the last printf of the
`Backtrace:` heading (nothing when the heading was never printed). -/
def backtraceSection : List Event → List Event
  | [] => []
  | e :: es =>
    if headingEvent ∈ es then backtraceSection es
    else if e = headingEvent then es else []

/-- A world at process start: flag clear, nothing printed, every disposition
at its default, no call made yet. -/
def startWorld : World :=
  { quitnextframe := false, stdout := "", disp := fun _ => Handler.SIG_DFL, trace := [] }

/-- An example build: the variant is chosen by `execinfo`, the call stack by
`stack`, and every address resolves to a fixed-form symbol string. -/
def exampleEnv (execinfo : Bool) (stack : List Nat) : Env :=
  { YQ2VERSION := "8.10", YQ2OSTYPE := "Linux", YQ2ARCH := "x86_64",
    compilerVersion := "12.2.0", hasExecinfo := execinfo, stack := stack,
    symbol := fun a => "quake2(+" ++ Nat.repr a ++ ")" }

/-! ## Basic facts about the library calls -/

theorem rule_length : rule.length = 55 := by decide

@[simp]
theorem printf_quitnextframe (t : String) (w : World) :
    (printf t w).quitnextframe = w.quitnextframe := rfl
@[simp]
theorem printf_stdout (t : String) (w : World) :
    (printf t w).stdout = w.stdout ++ t := rfl
@[simp]
theorem printf_disp (t : String) (w : World) : (printf t w).disp = w.disp := rfl
@[simp]
theorem printf_trace (t : String) (w : World) :
    (printf t w).trace = w.trace ++ [Event.printf t] := rfl

@[simp]
theorem fflush_quitnextframe (w : World) :
    (fflush w).quitnextframe = w.quitnextframe := rfl
@[simp]
theorem fflush_stdout (w : World) : (fflush w).stdout = w.stdout := rfl
@[simp]
theorem fflush_disp (w : World) : (fflush w).disp = w.disp := rfl
@[simp]
theorem fflush_trace (w : World) : (fflush w).trace = w.trace ++ [Event.fflush] := rfl

@[simp]
theorem signal_quitnextframe (s : Int) (h : Handler) (w : World) :
    (signal s h w).quitnextframe = w.quitnextframe := rfl
@[simp]
theorem signal_stdout (s : Int) (h : Handler) (w : World) :
    (signal s h w).stdout = w.stdout := rfl
@[simp]
theorem signal_disp (s : Int) (h : Handler) (w : World) (x : Int) :
    (signal s h w).disp x = if x = s then h else w.disp x := rfl
@[simp]
theorem signal_trace (s : Int) (h : Handler) (w : World) :
    (signal s h w).trace = w.trace ++ [Event.signal s h] := rfl

@[simp]
theorem raise_quitnextframe (s : Int) (w : World) :
    (raise s w).quitnextframe = w.quitnextframe := rfl
@[simp]
theorem raise_stdout (s : Int) (w : World) : (raise s w).stdout = w.stdout := rfl
@[simp]
theorem raise_disp (s : Int) (w : World) : (raise s w).disp = w.disp := rfl
@[simp]
theorem raise_trace (s : Int) (w : World) :
    (raise s w).trace = w.trace ++ [Event.raise s (w.disp s)] := rfl

@[simp]
theorem printed_nil : printed [] = "" := rfl
@[simp]
theorem printed_printf (t : String) (es : List Event) :
    printed (Event.printf t :: es) = t ++ printed es := rfl

@[simp]
theorem printed_fflush (es : List Event) :
    printed (Event.fflush :: es) = printed es := rfl
@[simp]
theorem printed_signal (s : Int) (h : Handler) (es : List Event) :
    printed (Event.signal s h :: es) = printed es := rfl
@[simp]
theorem printed_raise (s : Int) (h : Handler) (es : List Event) :
    printed (Event.raise s h :: es) = printed es := rfl

theorem printed_append (a b : List Event) : printed (a ++ b) = printed a ++ printed b := by
  induction a with
  | nil => simp
  | cons e t ih => cases e <;> simp [ih, String.append_assoc]

/-! ## The frame loop -/

/-- Indexing a list from an offset with an in-range counter visits its
elements in order. -/
theorem foldl_range'_getD {α β : Type} (f : β → α → β) (d : α) (l : List α) :
    ∀ (pre : List α) (b : β),
      (List.range' pre.length l.length).foldl (fun b i => f b ((pre ++ l).getD i d)) b
        = l.foldl f b := by
  induction l with
  | nil => intro pre b; rfl
  | cons a t ih =>
    intro pre b
    have h := ih (pre ++ [a]) (f b a)
    simp only [List.length_append, List.length_singleton, List.append_assoc,
      List.singleton_append] at h
    have hget : (pre ++ a :: t).getD pre.length d = a := by
      rw [List.getD_eq_getElem?_getD, List.getElem?_append_right (Nat.le_refl _)]
      simp
    simp only [List.length_cons, List.range'_succ, List.foldl_cons]
    rw [hget, h]

/-- The loop prints the strings one after the other when `size` is their
number. -/
theorem printFrames_eq_foldl (strings : List String) (w : World) :
    printFrames strings strings.length w
      = strings.foldl (fun w s => printf ("  " ++ s ++ "\n") w) w := by
  have h := foldl_range'_getD (fun w s => printf ("  " ++ s ++ "\n") w) "" strings [] w
  simpa [printFrames, List.range_eq_range'] using h

theorem foldl_printf_trace (g : String → String) (l : List String) :
    ∀ w : World, (l.foldl (fun w s => printf (g s) w) w).trace
      = w.trace ++ l.map (fun s => Event.printf (g s)) := by
  induction l with
  | nil => intro w; simp
  | cons a t ih => intro w; simp [ih]

theorem foldl_printf_stdout (g : String → String) (l : List String) :
    ∀ w : World, (l.foldl (fun w s => printf (g s) w) w).stdout
      = w.stdout ++ printed (l.map (fun s => Event.printf (g s))) := by
  induction l with
  | nil => intro w; simp
  | cons a t ih => intro w; simp [ih, String.append_assoc]

theorem foldl_printf_disp (g : String → String) (l : List String) :
    ∀ w : World, (l.foldl (fun w s => printf (g s) w) w).disp = w.disp := by
  induction l with
  | nil => intro w; rfl
  | cons a t ih => intro w; simp [ih]

theorem foldl_printf_quitnextframe (g : String → String) (l : List String) :
    ∀ w : World, (l.foldl (fun w s => printf (g s) w) w).quitnextframe = w.quitnextframe := by
  induction l with
  | nil => intro w; rfl
  | cons a t ih => intro w; simp [ih]

/-! ## Effects of the printing functions -/

theorem printDiagnostics_trace (env : Env) (sig : Int) (w : World) :
    (printDiagnostics env sig w).trace = w.trace ++
      [Event.printf "Product:      Yamagi Quake II\n",
       Event.printf ("Version:      " ++ env.YQ2VERSION ++ "\n"),
       Event.printf ("Platform:     " ++ env.YQ2OSTYPE ++ "\n"),
       Event.printf ("Architecture: " ++ env.YQ2ARCH ++ "\n"),
       Event.printf ("Compiler:     " ++ env.compilerVersion ++ "\n"),
       Event.printf ("Signal:       " ++ fmt_i sig ++ "\n"),
       Event.printf "\nBacktrace:\n"] := by
  simp [printDiagnostics]

theorem printDiagnostics_stdout (env : Env) (sig : Int) (w : World) :
    (printDiagnostics env sig w).stdout = w.stdout ++
      ("Product:      Yamagi Quake II\n" ++
      (("Version:      " ++ env.YQ2VERSION ++ "\n") ++
      (("Platform:     " ++ env.YQ2OSTYPE ++ "\n") ++
      (("Architecture: " ++ env.YQ2ARCH ++ "\n") ++
      (("Compiler:     " ++ env.compilerVersion ++ "\n") ++
      (("Signal:       " ++ fmt_i sig ++ "\n") ++
      "\nBacktrace:\n")))))) := by
  simp only [printDiagnostics, printf_stdout, String.append_assoc]

@[simp]
theorem printDiagnostics_disp (env : Env) (sig : Int) (w : World) :
    (printDiagnostics env sig w).disp = w.disp := rfl

@[simp]
theorem printDiagnostics_quitnextframe (env : Env) (sig : Int) (w : World) :
    (printDiagnostics env sig w).quitnextframe = w.quitnextframe := rfl

/-- The execinfo variant runs the loop over exactly the resolved strings. -/
theorem printBacktraceExecinfo_eq (env : Env) (sig : Int) (w : World) :
    printBacktraceExecinfo env sig w
      = printf "\n" ((backtrace_symbols env.symbol (backtrace env.stack 15)).foldl
          (fun w s => printf ("  " ++ s ++ "\n") w) (printDiagnostics env sig w)) := by
  have hlen : (backtrace env.stack 15).length
      = (backtrace_symbols env.symbol (backtrace env.stack 15)).length := by
    simp [backtrace_symbols]
  simp only [printBacktraceExecinfo]
  rw [hlen, printFrames_eq_foldl]

theorem printBacktraceExecinfo_trace (env : Env) (sig : Int) (w : World) :
    (printBacktraceExecinfo env sig w).trace
      = (printDiagnostics env sig w).trace
        ++ (backtrace_symbols env.symbol (backtrace env.stack 15)).map
            (fun s => Event.printf ("  " ++ s ++ "\n"))
        ++ [Event.printf "\n"] := by
  rw [printBacktraceExecinfo_eq, printf_trace, foldl_printf_trace (fun s => "  " ++ s ++ "\n")]

theorem printBacktraceExecinfo_stdout (env : Env) (sig : Int) (w : World) :
    (printBacktraceExecinfo env sig w).stdout
      = (printDiagnostics env sig w).stdout
        ++ (printed ((backtrace_symbols env.symbol (backtrace env.stack 15)).map
            (fun s => Event.printf ("  " ++ s ++ "\n")))
        ++ "\n") := by
  rw [printBacktraceExecinfo_eq, printf_stdout,
    foldl_printf_stdout (fun s => "  " ++ s ++ "\n"), String.append_assoc]

@[simp]
theorem printBacktraceExecinfo_disp (env : Env) (sig : Int) (w : World) :
    (printBacktraceExecinfo env sig w).disp = w.disp := by
  rw [printBacktraceExecinfo_eq, printf_disp, foldl_printf_disp (fun s => "  " ++ s ++ "\n")]
  rfl

@[simp]
theorem printBacktraceExecinfo_quitnextframe (env : Env) (sig : Int) (w : World) :
    (printBacktraceExecinfo env sig w).quitnextframe = w.quitnextframe := by
  rw [printBacktraceExecinfo_eq, printf_quitnextframe,
    foldl_printf_quitnextframe (fun s => "  " ++ s ++ "\n")]
  rfl

theorem printBacktraceFallback_trace (env : Env) (sig : Int) (w : World) :
    (printBacktraceFallback env sig w).trace
      = (printDiagnostics env sig w).trace
        ++ [Event.printf "  Not available on this plattform.\n\n"] := rfl

theorem printBacktraceFallback_stdout (env : Env) (sig : Int) (w : World) :
    (printBacktraceFallback env sig w).stdout
      = (printDiagnostics env sig w).stdout ++ "  Not available on this plattform.\n\n" := rfl

@[simp]
theorem printBacktrace_disp (env : Env) (sig : Int) (w : World) :
    (printBacktrace env sig w).disp = w.disp := by
  unfold printBacktrace
  split
  · simp
  · rfl

@[simp]
theorem printBacktrace_quitnextframe (env : Env) (sig : Int) (w : World) :
    (printBacktrace env sig w).quitnextframe = w.quitnextframe := by
  unfold printBacktrace
  split
  · simp
  · rfl

/-- Whatever the variant, `printBacktrace` makes the seven common printf
calls and then only further printf calls. -/
theorem printBacktrace_effects (env : Env) (sig : Int) (w : World) :
    ∃ sec : List String,
      (printBacktrace env sig w).trace
        = (printDiagnostics env sig w).trace ++ sec.map Event.printf ∧
      (printBacktrace env sig w).stdout
        = (printDiagnostics env sig w).stdout ++ printed (sec.map Event.printf) := by
  unfold printBacktrace
  split
  · refine ⟨(backtrace_symbols env.symbol (backtrace env.stack 15)).map
        (fun s => "  " ++ s ++ "\n") ++ ["\n"], ?_, ?_⟩
    · rw [printBacktraceExecinfo_trace]
      simp [List.map_append, Function.comp_def]
    · rw [printBacktraceExecinfo_stdout]
      simp [List.map_append, Function.comp_def, printed_append]
  · exact ⟨["  Not available on this plattform.\n\n"], rfl, by
      rw [printBacktraceFallback_stdout]; simp⟩

/-- The calls of `printBacktrace` after the seven common ones, by variant:
one frame line per captured address and the blank line, or the one
`Not available` text. -/
theorem printBacktrace_exact (env : Env) (sig : Int) (w : World) :
    (printBacktrace env sig w).trace
      = (printDiagnostics env sig w).trace ++
        (if env.hasExecinfo = true then
          (backtrace_symbols env.symbol (backtrace env.stack 15)).map
            (fun s => Event.printf ("  " ++ s ++ "\n")) ++ [Event.printf "\n"]
         else [Event.printf "  Not available on this plattform.\n\n"]) ∧
    (printBacktrace env sig w).stdout
      = (printDiagnostics env sig w).stdout ++ printed
        (if env.hasExecinfo = true then
          (backtrace_symbols env.symbol (backtrace env.stack 15)).map
            (fun s => Event.printf ("  " ++ s ++ "\n")) ++ [Event.printf "\n"]
         else [Event.printf "  Not available on this plattform.\n\n"]) := by
  unfold printBacktrace
  split
  · rw [printBacktraceExecinfo_trace, printBacktraceExecinfo_stdout]
    simp only [if_true, List.append_assoc, printed_append, printed_printf, printed_nil,
      String.append_empty, and_self]
  · rw [printBacktraceFallback_trace, printBacktraceFallback_stdout]
    simp only [if_false, printed_printf, printed_nil, String.append_empty, and_self]

@[simp]
theorem printBanner_disp (w : World) : (printBanner w).disp = w.disp := rfl

@[simp]
theorem printBanner_quitnextframe (w : World) :
    (printBanner w).quitnextframe = w.quitnextframe := rfl

theorem printBanner_trace (w : World) :
    (printBanner w).trace = w.trace ++
      [Event.printf ("\n" ++ rule ++ "\n"),
       Event.printf "\nYamagi Quake II crashed! This should not happen...\n",
       Event.printf "\nMake sure that you are using the last version.\n",
       Event.printf ("\n" ++ rule ++ "\n\n")] := by
  simp [printBanner]

theorem printBanner_stdout (w : World) :
    (printBanner w).stdout = w.stdout ++
      (("\n" ++ rule ++ "\n") ++
      ("\nYamagi Quake II crashed! This should not happen...\n" ++
      ("\nMake sure that you are using the last version.\n" ++
      ("\n" ++ rule ++ "\n\n")))) := by
  simp only [printBanner, printf_stdout, String.append_assoc]

/-! ## Effects of the handlers -/

theorem signalhandler_disp (env : Env) (sig : Int) (w : World) (x : Int) :
    (signalhandler env sig w).disp x
      = if x = SIGSEGV ∨ x = SIGILL ∨ x = SIGFPE ∨ x = SIGABRT then Handler.SIG_DFL
        else w.disp x := by
  simp only [signalhandler, raise_disp, signal_disp, fflush_disp, printBacktrace_disp,
    printBanner_disp]
  split_ifs <;> simp_all

theorem signalhandler_quitnextframe (env : Env) (sig : Int) (w : World) :
    (signalhandler env sig w).quitnextframe = w.quitnextframe := by
  simp [signalhandler]

theorem signalhandler_stdout_eq (env : Env) (sig : Int) (w : World) :
    (signalhandler env sig w).stdout = (printBacktrace env sig (printBanner w)).stdout := by
  simp [signalhandler]

theorem signalhandler_trace_eq (env : Env) (sig : Int) (w : World) :
    (signalhandler env sig w).trace
      = (printBacktrace env sig (printBanner w)).trace ++
        [Event.fflush,
         Event.signal SIGSEGV Handler.SIG_DFL,
         Event.signal SIGILL Handler.SIG_DFL,
         Event.signal SIGFPE Handler.SIG_DFL,
         Event.signal SIGABRT Handler.SIG_DFL,
         Event.raise sig
           (if sig = SIGSEGV ∨ sig = SIGILL ∨ sig = SIGFPE ∨ sig = SIGABRT
            then Handler.SIG_DFL else w.disp sig)] := by
  simp only [signalhandler, raise_trace, signal_trace, fflush_trace, signal_disp, fflush_disp,
    printBacktrace_disp, printBanner_disp, List.append_assoc, List.singleton_append,
    List.append_cancel_left_eq, List.cons.injEq, true_and, and_true, Event.raise.injEq]
  split_ifs <;> simp_all

theorem registerHandler_disp (w : World) (x : Int) :
    (registerHandler w).disp x
      = if x = SIGSEGV ∨ x = SIGILL ∨ x = SIGFPE ∨ x = SIGABRT then Handler.signalhandler
        else if x = SIGINT ∨ x = SIGTERM then Handler.terminate
        else w.disp x := by
  simp only [registerHandler, signal_disp]
  by_cases h1 : x = SIGSEGV
  · subst h1; simp [SIGSEGV, SIGILL, SIGFPE, SIGABRT, SIGINT, SIGTERM]
  by_cases h2 : x = SIGILL
  · subst h2; simp [SIGSEGV, SIGILL, SIGFPE, SIGABRT, SIGINT, SIGTERM]
  by_cases h3 : x = SIGFPE
  · subst h3; simp [SIGSEGV, SIGILL, SIGFPE, SIGABRT, SIGINT, SIGTERM]
  by_cases h4 : x = SIGABRT
  · subst h4; simp [SIGSEGV, SIGILL, SIGFPE, SIGABRT, SIGINT, SIGTERM]
  by_cases h5 : x = SIGINT
  · subst h5; simp [SIGSEGV, SIGILL, SIGFPE, SIGABRT, SIGINT, SIGTERM]
  by_cases h6 : x = SIGTERM
  · subst h6; simp [SIGSEGV, SIGILL, SIGFPE, SIGABRT, SIGINT, SIGTERM]
  simp [h1, h2, h3, h4, h5, h6]

/-- Banner, diagnostics and heading come first, then only printf calls, then
the flush, the four resets and the raise. -/
theorem signalhandler_effects (env : Env) (sig : Int) (w : World) :
    ∃ sec : List String,
      (signalhandler env sig w).trace = w.trace ++
        [Event.printf ("\n" ++ rule ++ "\n"),
         Event.printf "\nYamagi Quake II crashed! This should not happen...\n",
         Event.printf "\nMake sure that you are using the last version.\n",
         Event.printf ("\n" ++ rule ++ "\n\n")] ++
        [Event.printf "Product:      Yamagi Quake II\n",
         Event.printf ("Version:      " ++ env.YQ2VERSION ++ "\n"),
         Event.printf ("Platform:     " ++ env.YQ2OSTYPE ++ "\n"),
         Event.printf ("Architecture: " ++ env.YQ2ARCH ++ "\n"),
         Event.printf ("Compiler:     " ++ env.compilerVersion ++ "\n"),
         Event.printf ("Signal:       " ++ fmt_i sig ++ "\n"),
         Event.printf "\nBacktrace:\n"] ++
        sec.map Event.printf ++
        [Event.fflush,
         Event.signal SIGSEGV Handler.SIG_DFL,
         Event.signal SIGILL Handler.SIG_DFL,
         Event.signal SIGFPE Handler.SIG_DFL,
         Event.signal SIGABRT Handler.SIG_DFL,
         Event.raise sig
           (if sig = SIGSEGV ∨ sig = SIGILL ∨ sig = SIGFPE ∨ sig = SIGABRT
            then Handler.SIG_DFL else w.disp sig)] ∧
      (signalhandler env sig w).stdout = w.stdout ++
        (("\n" ++ rule ++ "\n") ++
        ("\nYamagi Quake II crashed! This should not happen...\n" ++
        ("\nMake sure that you are using the last version.\n" ++
        ("\n" ++ rule ++ "\n\n")))) ++
        ("Product:      Yamagi Quake II\n" ++
        (("Version:      " ++ env.YQ2VERSION ++ "\n") ++
        (("Platform:     " ++ env.YQ2OSTYPE ++ "\n") ++
        (("Architecture: " ++ env.YQ2ARCH ++ "\n") ++
        (("Compiler:     " ++ env.compilerVersion ++ "\n") ++
        (("Signal:       " ++ fmt_i sig ++ "\n") ++
        "\nBacktrace:\n")))))) ++
        printed (sec.map Event.printf) := by
  obtain ⟨sec, ht, hs⟩ := printBacktrace_effects env sig (printBanner w)
  refine ⟨sec, ?_, ?_⟩
  · rw [signalhandler_trace_eq, ht, printDiagnostics_trace, printBanner_trace]
  · rw [signalhandler_stdout_eq, hs, printDiagnostics_stdout, printBanner_stdout]

/-! ## The backtrace section -/

theorem backtraceSection_after_heading (sec : List Event) (h : headingEvent ∉ sec) :
    ∀ pre : List Event, backtraceSection (pre ++ headingEvent :: sec) = sec := by
  intro pre
  induction pre with
  | nil => simp [backtraceSection, h]
  | cons e t ih => simp [backtraceSection, ih]

theorem frameLine_ne_heading (s : String) :
    Event.printf ("  " ++ s ++ "\n") ≠ headingEvent := by
  intro h
  have h2 := congrArg String.data (Event.printf.inj h)
  simp at h2

theorem heading_not_mem_frames (frames : List String) :
    headingEvent ∉ frames.map (fun s => Event.printf ("  " ++ s ++ "\n"))
      ++ [Event.printf "\n"] := by
  intro h
  rcases List.mem_append.1 h with h | h
  · obtain ⟨s, _, hs⟩ := List.mem_map.1 h
    exact frameLine_ne_heading s hs
  · simp [headingEvent] at h

theorem printDiagnostics_trace_heading (env : Env) (sig : Int) (w : World) :
    ∃ pre : List Event, (printDiagnostics env sig w).trace = pre ++ [headingEvent] := by
  refine ⟨w.trace ++
      [Event.printf "Product:      Yamagi Quake II\n",
       Event.printf ("Version:      " ++ env.YQ2VERSION ++ "\n"),
       Event.printf ("Platform:     " ++ env.YQ2OSTYPE ++ "\n"),
       Event.printf ("Architecture: " ++ env.YQ2ARCH ++ "\n"),
       Event.printf ("Compiler:     " ++ env.compilerVersion ++ "\n"),
       Event.printf ("Signal:       " ++ fmt_i sig ++ "\n")], ?_⟩
  rw [printDiagnostics_trace]
  simp [headingEvent]

theorem backtraceSection_execinfo (env : Env) (sig : Int) (w : World) :
    backtraceSection (printBacktraceExecinfo env sig w).trace
      = (backtrace_symbols env.symbol (backtrace env.stack 15)).map
          (fun s => Event.printf ("  " ++ s ++ "\n")) ++ [Event.printf "\n"] := by
  obtain ⟨pre, hpre⟩ := printDiagnostics_trace_heading env sig w
  rw [printBacktraceExecinfo_trace, hpre]
  simp only [List.append_assoc, List.singleton_append]
  exact backtraceSection_after_heading _ (heading_not_mem_frames _) pre

theorem backtraceSection_fallback (env : Env) (sig : Int) (w : World) :
    backtraceSection (printBacktraceFallback env sig w).trace
      = [Event.printf "  Not available on this plattform.\n\n"] := by
  obtain ⟨pre, hpre⟩ := printDiagnostics_trace_heading env sig w
  rw [printBacktraceFallback_trace, hpre]
  simp only [List.append_assoc, List.singleton_append]
  exact backtraceSection_after_heading _ (by simp [headingEvent]) pre

theorem backtrace_length (stack : List Nat) (size : Nat) :
    (backtrace stack size).length = min size stack.length := by
  simp [backtrace]

/-! ## Graceful path -/

/-- C1: for every signal number (so for SIGINT and SIGTERM) and every prior
value of the flag, `terminate` returns a state in which `quitnextframe` is
true; it returns normally: it is a total function and it makes no library
call, in particular no `raise`. -/
theorem terminate_sets_flag (sig : Int) (w : World) :
    (terminate sig w).quitnextframe = true ∧
    (terminate SIGINT w).quitnextframe = true ∧
    (terminate SIGTERM w).quitnextframe = true ∧
    (terminate sig w).trace = w.trace :=
  ⟨rfl, rfl, rfl, rfl⟩

/-- C8: `terminate` changes nothing but the flag: the text on standard output,
the disposition table and the trace of library calls are the ones from before;
and from a state with the flag false and no output, the handler run for SIGINT
leaves the flag true and the output empty. -/
theorem terminate_frame (sig : Int) (w : World) :
    (terminate sig w).stdout = w.stdout ∧
    (terminate sig w).disp = w.disp ∧
    (terminate sig w).trace = w.trace ∧
    (∀ (disp : Int → Handler) (trace : List Event),
      (terminate SIGINT ⟨false, "", disp, trace⟩).quitnextframe = true ∧
      (terminate SIGINT ⟨false, "", disp, trace⟩).stdout = "") :=
  ⟨rfl, rfl, rfl, fun _ _ => ⟨rfl, rfl⟩⟩

/-! ## Registration -/

/-- C5: after `registerHandler` the four fatal signals are handled by
`signalhandler`, SIGINT and SIGTERM by `terminate`, and every other signal has
the disposition it had before: the new table is the old one overwritten at
these six numbers only. -/
theorem registerHandler_dispositions (w : World) :
    (registerHandler w).disp SIGSEGV = Handler.signalhandler ∧
    (registerHandler w).disp SIGILL = Handler.signalhandler ∧
    (registerHandler w).disp SIGFPE = Handler.signalhandler ∧
    (registerHandler w).disp SIGABRT = Handler.signalhandler ∧
    (registerHandler w).disp SIGINT = Handler.terminate ∧
    (registerHandler w).disp SIGTERM = Handler.terminate ∧
    (∀ s : Int, (registerHandler w).disp s =
      if s = SIGSEGV ∨ s = SIGILL ∨ s = SIGFPE ∨ s = SIGABRT then Handler.signalhandler
      else if s = SIGINT ∨ s = SIGTERM then Handler.terminate
      else w.disp s) := by
  refine ⟨?_, ?_, ?_, ?_, ?_, ?_, ?_⟩
  · rw [registerHandler_disp]; simp
  · rw [registerHandler_disp]; simp
  · rw [registerHandler_disp]; simp
  · rw [registerHandler_disp]; simp
  · rw [registerHandler_disp]; simp [SIGSEGV, SIGILL, SIGFPE, SIGABRT, SIGINT]
  · rw [registerHandler_disp]; simp [SIGSEGV, SIGILL, SIGFPE, SIGABRT, SIGTERM]
  · exact registerHandler_disp w

/-- C6: a second `registerHandler` leaves the disposition table exactly as
the first one made it; each call consists of the six `signal` installations
and nothing else (the function is void and has no error outcome), and neither
touches the flag or the output. -/
theorem registerHandler_idempotent (w : World) :
    (registerHandler (registerHandler w)).disp = (registerHandler w).disp ∧
    (registerHandler w).trace = w.trace ++
      [Event.signal SIGSEGV Handler.signalhandler, Event.signal SIGILL Handler.signalhandler,
       Event.signal SIGFPE Handler.signalhandler, Event.signal SIGABRT Handler.signalhandler,
       Event.signal SIGINT Handler.terminate, Event.signal SIGTERM Handler.terminate] ∧
    (registerHandler (registerHandler w)).trace = (registerHandler w).trace ++
      [Event.signal SIGSEGV Handler.signalhandler, Event.signal SIGILL Handler.signalhandler,
       Event.signal SIGFPE Handler.signalhandler, Event.signal SIGABRT Handler.signalhandler,
       Event.signal SIGINT Handler.terminate, Event.signal SIGTERM Handler.terminate] ∧
    (registerHandler (registerHandler w)).quitnextframe = w.quitnextframe ∧
    (registerHandler (registerHandler w)).stdout = w.stdout := by
  refine ⟨?_, ?_, ?_, ?_, ?_⟩
  · funext x
    rw [registerHandler_disp (registerHandler w) x, registerHandler_disp w x]
    split_ifs <;> rfl
  · simp [registerHandler]
  · simp [registerHandler]
  · simp [registerHandler]
  · simp [registerHandler]

/-! ## Crash path: dispositions -/

/-- C3: whatever the signal number and the prior table, once `signalhandler`
has run (its final `raise` intercepted) the dispositions of SIGSEGV, SIGILL,
SIGFPE and SIGABRT are all `SIG_DFL`. -/
theorem signalhandler_resets_dispositions (env : Env) (sig : Int) (w : World) :
    (signalhandler env sig w).disp SIGSEGV = Handler.SIG_DFL ∧
    (signalhandler env sig w).disp SIGILL = Handler.SIG_DFL ∧
    (signalhandler env sig w).disp SIGFPE = Handler.SIG_DFL ∧
    (signalhandler env sig w).disp SIGABRT = Handler.SIG_DFL := by
  refine ⟨?_, ?_, ?_, ?_⟩ <;> rw [signalhandler_disp] <;> simp

/-! ## The shutdown flag -/

theorem step_quitnextframe (env : Env) (w : World) (op : Op)
    (h : w.quitnextframe = true) : (step env w op).quitnextframe = true := by
  cases op with
  | registerHandler => simpa [step, registerHandler] using h
  | terminate sig => rfl
  | signalhandler sig => simpa [step, signalhandler_quitnextframe] using h

theorem run_quitnextframe (env : Env) (ops : List Op) :
    ∀ w : World, w.quitnextframe = true → (run env ops w).quitnextframe = true := by
  induction ops with
  | nil => intro w h; exact h
  | cons op t ih => intro w h; exact ih (step env w op) (step_quitnextframe env w op h)

/-- C7: once `quitnextframe` is true it stays true under `registerHandler`,
under `terminate` and under `signalhandler` for every signal number, and so
after every sequence of these operations. -/
theorem quitnextframe_monotone (env : Env) (w : World) (h : w.quitnextframe = true) :
    (registerHandler w).quitnextframe = true ∧
    (∀ sig : Int, (terminate sig w).quitnextframe = true) ∧
    (∀ sig : Int, (signalhandler env sig w).quitnextframe = true) ∧
    (∀ ops : List Op, (run env ops w).quitnextframe = true) :=
  ⟨step_quitnextframe env w Op.registerHandler h,
   fun sig => step_quitnextframe env w (Op.terminate sig) h,
   fun sig => step_quitnextframe env w (Op.signalhandler sig) h,
   fun ops => run_quitnextframe env ops w h⟩

/-- Witness for C7: a state with the flag set, on the execinfo variant with a
two-frame stack. -/
theorem quitnextframe_monotone_witness :
    (terminate SIGINT startWorld).quitnextframe = true ∧
    ((registerHandler (terminate SIGINT startWorld)).quitnextframe = true ∧
     (∀ sig : Int, (terminate sig (terminate SIGINT startWorld)).quitnextframe = true) ∧
     (∀ sig : Int, (signalhandler (exampleEnv true [4198, 4242]) sig
        (terminate SIGINT startWorld)).quitnextframe = true) ∧
     (∀ ops : List Op, (run (exampleEnv true [4198, 4242]) ops
        (terminate SIGINT startWorld)).quitnextframe = true)) :=
  ⟨rfl, quitnextframe_monotone (exampleEnv true [4198, 4242]) (terminate SIGINT startWorld) rfl⟩

/-! ## Crash path: the report -/

/-- C2: for every signal number (so for SIGSEGV, SIGILL, SIGFPE, SIGABRT) and
on both variants, `signalhandler` prints the banner, then the six labelled
lines Product, Version, Platform, Architecture, Compiler, Signal in this order,
each ended by a newline, then the backtrace heading and section; all of these
printf calls come before the flush, the four resets and the raise.  For SIGABRT,
whose number is 6, the output holds the line `Signal:       6`. -/
theorem signalhandler_prints_diagnostics (env : Env) (sig : Int) (w : World) :
    (∃ (sec : List String) (d : Handler),
      (signalhandler env sig w).trace = w.trace ++
        [Event.printf ("\n" ++ rule ++ "\n"),
         Event.printf "\nYamagi Quake II crashed! This should not happen...\n",
         Event.printf "\nMake sure that you are using the last version.\n",
         Event.printf ("\n" ++ rule ++ "\n\n")] ++
        [Event.printf "Product:      Yamagi Quake II\n",
         Event.printf ("Version:      " ++ env.YQ2VERSION ++ "\n"),
         Event.printf ("Platform:     " ++ env.YQ2OSTYPE ++ "\n"),
         Event.printf ("Architecture: " ++ env.YQ2ARCH ++ "\n"),
         Event.printf ("Compiler:     " ++ env.compilerVersion ++ "\n"),
         Event.printf ("Signal:       " ++ fmt_i sig ++ "\n")] ++
        Event.printf "\nBacktrace:\n" :: sec.map Event.printf ++
        [Event.fflush,
         Event.signal SIGSEGV Handler.SIG_DFL,
         Event.signal SIGILL Handler.SIG_DFL,
         Event.signal SIGFPE Handler.SIG_DFL,
         Event.signal SIGABRT Handler.SIG_DFL,
         Event.raise sig d] ∧
      (signalhandler env sig w).stdout = w.stdout ++
        ("\n" ++ rule ++ "\n") ++
        "\nYamagi Quake II crashed! This should not happen...\n" ++
        "\nMake sure that you are using the last version.\n" ++
        ("\n" ++ rule ++ "\n\n") ++
        "Product:      Yamagi Quake II\n" ++
        ("Version:      " ++ env.YQ2VERSION ++ "\n") ++
        ("Platform:     " ++ env.YQ2OSTYPE ++ "\n") ++
        ("Architecture: " ++ env.YQ2ARCH ++ "\n") ++
        ("Compiler:     " ++ env.compilerVersion ++ "\n") ++
        ("Signal:       " ++ fmt_i sig ++ "\n") ++
        "\nBacktrace:\n" ++ printed (sec.map Event.printf)) ∧
    SIGABRT = 6 ∧
    (∃ pre post : String,
      (signalhandler env SIGABRT w).stdout = pre ++ "\n" ++ "Signal:       6\n" ++ post) := by
  refine ⟨?_, rfl, ?_⟩
  · obtain ⟨sec, ht, hs⟩ := signalhandler_effects env sig w
    refine ⟨sec, if sig = SIGSEGV ∨ sig = SIGILL ∨ sig = SIGFPE ∨ sig = SIGABRT
        then Handler.SIG_DFL else w.disp sig, ?_, ?_⟩
    · rw [ht]; simp only [List.append_assoc, List.cons_append, List.nil_append]
    · rw [hs]; simp only [String.append_assoc]
  · obtain ⟨sec, _, hs⟩ := signalhandler_effects env SIGABRT w
    have h6 : "Signal:       " ++ fmt_i SIGABRT ++ "\n" = "Signal:       6\n" := by decide
    rw [h6] at hs
    refine ⟨w.stdout ++
        ("\n" ++ rule ++ "\n") ++
        "\nYamagi Quake II crashed! This should not happen...\n" ++
        "\nMake sure that you are using the last version.\n" ++
        ("\n" ++ rule ++ "\n\n") ++
        "Product:      Yamagi Quake II\n" ++
        ("Version:      " ++ env.YQ2VERSION ++ "\n") ++
        ("Platform:     " ++ env.YQ2OSTYPE ++ "\n") ++
        ("Architecture: " ++ env.YQ2ARCH ++ "\n") ++
        ("Compiler:     " ++ env.compilerVersion),
      "\nBacktrace:\n" ++ printed (sec.map Event.printf), ?_⟩
    rw [hs]; simp only [String.append_assoc]

/-- C9: the trace of `signalhandler` is, in this order: the four banner
printf calls, the six diagnostic printf calls and the heading, the backtrace
section of the variant (one frame line per captured address and the blank
line, or the one `Not available` text), then the flush, then the four resets to
`SIG_DFL`, then as last call the raise of the number it was called with; the
text added to standard output is the text of exactly these printf calls.  The
disposition met by that raise is `SIG_DFL` when the number is one of SIGSEGV,
SIGILL, SIGFPE, SIGABRT (and the prior one otherwise), so for these four the
raise does not re-enter `signalhandler`. -/
theorem signalhandler_effect_order (env : Env) (sig : Int) (w : World) :
    (signalhandler env sig w).trace = w.trace ++
      [Event.printf ("\n" ++ rule ++ "\n"),
       Event.printf "\nYamagi Quake II crashed! This should not happen...\n",
       Event.printf "\nMake sure that you are using the last version.\n",
       Event.printf ("\n" ++ rule ++ "\n\n")] ++
      [Event.printf "Product:      Yamagi Quake II\n",
       Event.printf ("Version:      " ++ env.YQ2VERSION ++ "\n"),
       Event.printf ("Platform:     " ++ env.YQ2OSTYPE ++ "\n"),
       Event.printf ("Architecture: " ++ env.YQ2ARCH ++ "\n"),
       Event.printf ("Compiler:     " ++ env.compilerVersion ++ "\n"),
       Event.printf ("Signal:       " ++ fmt_i sig ++ "\n"),
       Event.printf "\nBacktrace:\n"] ++
      (if env.hasExecinfo = true then
        (backtrace_symbols env.symbol (backtrace env.stack 15)).map
          (fun s => Event.printf ("  " ++ s ++ "\n")) ++ [Event.printf "\n"]
       else [Event.printf "  Not available on this plattform.\n\n"]) ++
      [Event.fflush,
       Event.signal SIGSEGV Handler.SIG_DFL,
       Event.signal SIGILL Handler.SIG_DFL,
       Event.signal SIGFPE Handler.SIG_DFL,
       Event.signal SIGABRT Handler.SIG_DFL,
       Event.raise sig
         (if sig = SIGSEGV ∨ sig = SIGILL ∨ sig = SIGFPE ∨ sig = SIGABRT
          then Handler.SIG_DFL else w.disp sig)] ∧
    (signalhandler env sig w).stdout = w.stdout ++ printed
      ([Event.printf ("\n" ++ rule ++ "\n"),
        Event.printf "\nYamagi Quake II crashed! This should not happen...\n",
        Event.printf "\nMake sure that you are using the last version.\n",
        Event.printf ("\n" ++ rule ++ "\n\n")] ++
       [Event.printf "Product:      Yamagi Quake II\n",
        Event.printf ("Version:      " ++ env.YQ2VERSION ++ "\n"),
        Event.printf ("Platform:     " ++ env.YQ2OSTYPE ++ "\n"),
        Event.printf ("Architecture: " ++ env.YQ2ARCH ++ "\n"),
        Event.printf ("Compiler:     " ++ env.compilerVersion ++ "\n"),
        Event.printf ("Signal:       " ++ fmt_i sig ++ "\n"),
        Event.printf "\nBacktrace:\n"] ++
       (if env.hasExecinfo = true then
         (backtrace_symbols env.symbol (backtrace env.stack 15)).map
           (fun s => Event.printf ("  " ++ s ++ "\n")) ++ [Event.printf "\n"]
        else [Event.printf "  Not available on this plattform.\n\n"])) ∧
    (signalhandler env SIGSEGV w).trace.getLast?
      = some (Event.raise SIGSEGV Handler.SIG_DFL) ∧
    (signalhandler env SIGILL w).trace.getLast?
      = some (Event.raise SIGILL Handler.SIG_DFL) ∧
    (signalhandler env SIGFPE w).trace.getLast?
      = some (Event.raise SIGFPE Handler.SIG_DFL) ∧
    (signalhandler env SIGABRT w).trace.getLast?
      = some (Event.raise SIGABRT Handler.SIG_DFL) := by
  refine ⟨?_, ?_, ?_, ?_, ?_, ?_⟩
  · rw [signalhandler_trace_eq, (printBacktrace_exact env sig (printBanner w)).1,
      printDiagnostics_trace, printBanner_trace]
  · rw [signalhandler_stdout_eq, (printBacktrace_exact env sig (printBanner w)).2,
      printDiagnostics_stdout, printBanner_stdout]
    simp only [printed_append, printed_printf, printed_nil, String.append_assoc,
      String.append_empty]
  · rw [signalhandler_trace_eq]; simp [List.getLast?_append]
  · rw [signalhandler_trace_eq]; simp [List.getLast?_append]
  · rw [signalhandler_trace_eq]; simp [List.getLast?_append]
  · rw [signalhandler_trace_eq]; simp [List.getLast?_append]

/-! ## Crash path: the backtrace -/

/-- C10: on the execinfo variant, with n the number of addresses the capture
call returns when asked for 15, n is at most 15 (the smaller of 15 and the
stack depth), and `printBacktrace` makes, between the printf of the heading
and the printf of the closing blank line, exactly n printf calls, the i-th
printing two spaces, the symbol string of the i-th captured address and a
newline. -/
theorem printBacktrace_frame_lines (env : Env) (sig : Int) (w : World)
    (h : env.hasExecinfo = true) :
    (backtrace env.stack 15).length ≤ 15 ∧
    (backtrace env.stack 15).length = min 15 env.stack.length ∧
    (∃ lines : List Event,
      (printBacktrace env sig w).trace
        = (printDiagnostics env sig w).trace ++ lines ++ [Event.printf "\n"] ∧
      (printDiagnostics env sig w).trace.getLast? = some (Event.printf "\nBacktrace:\n") ∧
      lines.length = (backtrace env.stack 15).length ∧
      (∀ i : Nat, i < (backtrace env.stack 15).length →
        ∃ a : Nat, (backtrace env.stack 15)[i]? = some a ∧ env.stack[i]? = some a ∧
          lines[i]? = some (Event.printf ("  " ++ env.symbol a ++ "\n"))) ∧
      (printBacktrace env sig w).stdout
        = (printDiagnostics env sig w).stdout ++ printed lines ++ "\n") := by
  have hlen := backtrace_length env.stack 15
  refine ⟨by rw [hlen]; exact Nat.min_le_left _ _, hlen, ?_⟩
  refine ⟨(backtrace_symbols env.symbol (backtrace env.stack 15)).map
      (fun s => Event.printf ("  " ++ s ++ "\n")), ?_, ?_, ?_, ?_, ?_⟩
  · simp only [printBacktrace, h, if_true]
    exact printBacktraceExecinfo_trace env sig w
  · rw [printDiagnostics_trace]; simp [List.getLast?_append]
  · simp [backtrace_symbols]
  · intro i hi
    have hi2 : i < env.stack.length := by
      rw [hlen] at hi; exact lt_of_lt_of_le hi (Nat.min_le_right _ _)
    have hi3 : i < 15 := by
      rw [hlen] at hi; exact lt_of_lt_of_le hi (Nat.min_le_left _ _)
    refine ⟨env.stack[i], ?_, ?_, ?_⟩
    · simp [backtrace, List.getElem?_take, hi3, hi2]
    · simp [hi2]
    · simp [backtrace_symbols, backtrace, List.getElem?_take, hi3, hi2]
  · simp only [printBacktrace, h, if_true]
    rw [printBacktraceExecinfo_stdout, String.append_assoc]

/-- Witness for C10: the execinfo variant with a two-frame stack. -/
theorem printBacktrace_frame_lines_witness :
    (exampleEnv true [4198, 4242]).hasExecinfo = true ∧
    (backtrace (exampleEnv true [4198, 4242]).stack 15).length = 2 ∧
    (printBacktrace (exampleEnv true [4198, 4242]) SIGSEGV startWorld).stdout
      = "Product:      Yamagi Quake II\nVersion:      8.10\nPlatform:     Linux\nArchitecture: x86_64\nCompiler:     12.2.0\nSignal:       11\n\nBacktrace:\n  quake2(+4198)\n  quake2(+4242)\n\n" ∧
    (backtrace (exampleEnv true [4198, 4242]).stack 15).length ≤ 15 :=
  ⟨rfl, rfl, rfl,
   (printBacktrace_frame_lines (exampleEnv true [4198, 4242]) SIGSEGV startWorld rfl).1⟩

/-- C4, as the code has it: on the execinfo variant the backtrace section is
one frame line per captured address (as many as the smaller of 15 and the stack
depth, so none when the capture returns 0) followed by the blank line; on the
other variant it is exactly the one `Not available` printf. -/
theorem backtraceSection_contents (env : Env) (sig : Int) (w : World) :
    (env.hasExecinfo = true →
      backtraceSection (printBacktrace env sig w).trace
        = (backtrace_symbols env.symbol (backtrace env.stack 15)).map
            (fun s => Event.printf ("  " ++ s ++ "\n")) ++ [Event.printf "\n"] ∧
      (backtrace_symbols env.symbol (backtrace env.stack 15)).length
        = min 15 env.stack.length) ∧
    (env.hasExecinfo = false →
      backtraceSection (printBacktrace env sig w).trace
        = [Event.printf "  Not available on this plattform.\n\n"]) := by
  constructor
  · intro h
    simp only [printBacktrace, h, if_true]
    exact ⟨backtraceSection_execinfo env sig w, by
      simp [backtrace_symbols, backtrace_length]⟩
  · intro h
    simp only [printBacktrace, h]
    exact backtraceSection_fallback env sig w

/-- Witness for C4 as amended: one run on each variant. -/
theorem backtraceSection_contents_witness :
    ((exampleEnv true [4198, 4242]).hasExecinfo = true ∧
      backtraceSection (printBacktrace (exampleEnv true [4198, 4242]) SIGABRT startWorld).trace
        = (backtrace_symbols (exampleEnv true [4198, 4242]).symbol
            (backtrace (exampleEnv true [4198, 4242]).stack 15)).map
            (fun s => Event.printf ("  " ++ s ++ "\n")) ++ [Event.printf "\n"]) ∧
    ((exampleEnv false [4198, 4242]).hasExecinfo = false ∧
      backtraceSection (printBacktrace (exampleEnv false [4198, 4242]) SIGABRT startWorld).trace
        = [Event.printf "  Not available on this plattform.\n\n"]) :=
  ⟨⟨rfl, ((backtraceSection_contents (exampleEnv true [4198, 4242]) SIGABRT startWorld).1
      rfl).1⟩,
   ⟨rfl, (backtraceSection_contents (exampleEnv false [4198, 4242]) SIGABRT startWorld).2 rfl⟩⟩

/-- C4 as stated fails: on the execinfo variant with a capture of 0 frames
the backtrace section is the blank line alone; it holds no frame line and no
`Not available` line. -/
theorem backtraceSection_neither :
    (exampleEnv true []).hasExecinfo = true ∧
    (backtrace (exampleEnv true []).stack 15).length = 0 ∧
    backtraceSection (printBacktrace (exampleEnv true []) SIGABRT startWorld).trace
      = [Event.printf "\n"] ∧
    ¬ ((∃ s : String, Event.printf ("  " ++ s ++ "\n") ∈
          backtraceSection (printBacktrace (exampleEnv true []) SIGABRT startWorld).trace) ∨
        Event.printf "  Not available on this plattform.\n\n" ∈
          backtraceSection (printBacktrace (exampleEnv true []) SIGABRT startWorld).trace) := by
  have hsec : backtraceSection (printBacktrace (exampleEnv true []) SIGABRT startWorld).trace
      = [Event.printf "\n"] := by
    have h := backtraceSection_execinfo (exampleEnv true []) SIGABRT startWorld
    simpa [printBacktrace, exampleEnv, backtrace, backtrace_symbols] using h
  refine ⟨rfl, rfl, hsec, ?_⟩
  rw [hsec]
  rintro (⟨s, hs⟩ | h)
  · have h2 := congrArg String.length (Event.printf.inj (List.mem_singleton.1 hs))
    simp [String.length_append] at h2
    exact absurd h2.1 (by decide)
  · simp at h

end SignalHandler
